import Mathlib

set_option autoImplicit false

namespace OSC

/-!
Shallow embedding of the OSC-Controller core (src/core/mapping.py and
src/core/osc_server.py).  Python floats are modelled as exact rationals;
Python lists as Lean lists; the insertion-ordered Python dict used for the
routing table as an association list whose new keys are appended at the
end.  Definitions come first, then the verification lemmas and theorems.
-/

/-- Embeds `GenericOSCMapping` (src/core/mapping.py, lines 32-86). -/
structure GenericOSCMapping where
  address : String
  data_path : String
  min_in : ℚ := 0
  max_in : ℚ := 1
  min_out : ℚ := 0
  max_out : ℚ := 1
  clamp : Bool := true
  invert : Bool := false
deriving DecidableEq

/-- Embeds `GenericOSCMapping.map_value`: normalize into [0,1] (0 on a
degenerate input range), optionally clamp, optionally invert, then remap
into the output range. -/
def GenericOSCMapping.map_value (self : GenericOSCMapping) (v : ℚ) : ℚ :=
  let t0 : ℚ :=
    if self.max_in ≠ self.min_in then (v - self.min_in) / (self.max_in - self.min_in) else 0
  let t1 : ℚ := if self.clamp then max 0 (min 1 t0) else t0
  let t2 : ℚ := if self.invert then 1 - t1 else t1
  self.min_out + t2 * (self.max_out - self.min_out)

/-- Embeds `OSCMapping` (src/core/mapping.py, lines 93-136). -/
structure OSCMapping where
  address : String
  object_name : String
  shapekey_name : String
  armature_name : String := ""
  bone_name : String := ""
  rotation_axis : String := "X"
  rotation_mode : String := "EULER"
  min_in : ℚ := 0
  max_in : ℚ := 1
  min_out : ℚ := 0
  max_out : ℚ := 1
  clamp : Bool := true
  invert : Bool := false
deriving DecidableEq

/-- Embeds `OSCMapping.map_value` (src/core/mapping.py, lines 138-164),
written in the source "exactly like GenericOSCMapping". -/
def OSCMapping.map_value (self : OSCMapping) (v : ℚ) : ℚ :=
  let t0 : ℚ :=
    if self.max_in ≠ self.min_in then (v - self.min_in) / (self.max_in - self.min_in) else 0
  let t1 : ℚ := if self.clamp then max 0 (min 1 t0) else t0
  let t2 : ℚ := if self.invert then 1 - t1 else t1
  self.min_out + t2 * (self.max_out - self.min_out)

/-- Python's whitespace test used by str.strip(): space, tab, newline,
carriage return, vertical tab and form feed. -/
def pyIsSpace (c : Char) : Bool :=
  c = ' ' || c = '\t' || c = '\n' || c = '\r' || c = '\x0b' || c = '\x0c'

/-- Python str.strip() as applied to the configuration strings in
build_mapping_table_extended: drop leading and trailing whitespace. -/
def pyStrip (s : String) : String :=
  ⟨((s.data.dropWhile pyIsSpace).reverse.dropWhile pyIsSpace).reverse⟩

/-- One record of ctx.scene.osc_mappings (character-rule configuration),
as read by build_mapping_table_extended (src/core/mapping.py, lines 194-209). -/
structure CharItem where
  address : String
  object_name : String
  shapekey_name : String
  armature_name : String := ""
  bone_name : String := ""
  rotation_axis : String := "X"
  rotation_mode : String := "EULER"
  min_in : ℚ := 0
  max_in : ℚ := 1
  min_out : ℚ := 0
  max_out : ℚ := 1
  clamp : Bool := true
  invert : Bool := false
deriving DecidableEq

/-- One record of ctx.scene.osc_generic_mappings (generic-rule
configuration), as read by build_mapping_table_extended (lines 217-227). -/
structure GenericItem where
  address : String
  data_path : String
  min_in : ℚ := 0
  max_in : ℚ := 1
  min_out : ℚ := 0
  max_out : ℚ := 1
  clamp : Bool := true
  invert : Bool := false
deriving DecidableEq

/-- The configuration snapshot read from the scene on each tick. -/
structure Config where
  osc_mappings : List CharItem
  osc_generic_mappings : List GenericItem
deriving DecidableEq

/-- A routing-table entry is either kind of mapping (the Python list holds
OSCMapping and GenericOSCMapping instances side by side). -/
inductive Mapping where
  | char (m : OSCMapping)
  | generic (m : GenericOSCMapping)
deriving DecidableEq

/-- The OSCMapping constructed from a configuration record
(build_mapping_table_extended, lines 195-209: strips the string fields). -/
def charMappingOfItem (item : CharItem) : OSCMapping :=
  { address := pyStrip item.address
    object_name := pyStrip item.object_name
    shapekey_name := pyStrip item.shapekey_name
    armature_name := pyStrip item.armature_name
    bone_name := pyStrip item.bone_name
    rotation_axis := item.rotation_axis
    rotation_mode := item.rotation_mode
    min_in := item.min_in
    max_in := item.max_in
    min_out := item.min_out
    max_out := item.max_out
    clamp := item.clamp
    invert := item.invert }

/-- The GenericOSCMapping constructed from a configuration record
(build_mapping_table_extended, lines 218-227). -/
def genericMappingOfItem (item : GenericItem) : GenericOSCMapping :=
  { address := pyStrip item.address
    data_path := pyStrip item.data_path
    min_in := item.min_in
    max_in := item.max_in
    min_out := item.min_out
    max_out := item.max_out
    clamp := item.clamp
    invert := item.invert }

/-- The routing table: a Python dict (insertion-ordered) from address to
the list of mappings registered on it, as an association list. -/
abbrev MappingTable := List (String × List Mapping)

/-- table.setdefault(addr, []).append(m) on an insertion-ordered dict:
append m to the existing group for addr, or add a new (addr, [m]) entry at
the end of the table. -/
def tableAppend : MappingTable → String → Mapping → MappingTable
  | [], addr, m => [(addr, [m])]
  | (a, ms) :: rest, addr, m =>
    if a = addr then (a, ms ++ [m]) :: rest
    else (a, ms) :: tableAppend rest addr m

/-- table[addr]: the group stored under the first matching key ([] when the
address is absent). -/
def lookupTable : MappingTable → String → List Mapping
  | [], _ => []
  | (a, ms) :: rest, addr => if a = addr then ms else lookupTable rest addr

/-- The Python membership test `addr in table`. -/
def containsAddr : MappingTable → String → Bool
  | [], _ => false
  | (a, _) :: rest, addr => a = addr || containsAddr rest addr

/-- Embeds build_mapping_table_extended (src/core/mapping.py, lines
171-232): character rules first in collection order, then generic rules in
collection order, grouped by stripped address. -/
def build_mapping_table_extended (cfg : Config) : MappingTable :=
  let table :=
    cfg.osc_mappings.foldl
      (fun t item => tableAppend t (pyStrip item.address) (Mapping.char (charMappingOfItem item)))
      []
  cfg.osc_generic_mappings.foldl
    (fun t item =>
      tableAppend t (pyStrip item.address) (Mapping.generic (genericMappingOfItem item)))
    table

/-- One OSC argument as decoded from the wire (int32, float32, string or
blob); numeric values are modelled as exact rationals. -/
inductive OSCArg where
  | ofFloat (q : ℚ)
  | ofInt (n : ℤ)
  | ofString (s : String)
  | ofBlob (bytes : List Nat)
deriving DecidableEq

/-- An inbound message: the (address, list_of_args) tuple stored in the
queue by osc_handler (src/core/osc_server.py, line 101). -/
abbrev Msg := String × List OSCArg

/-- The Python queue.Queue state: the maxsize constructor argument
(queue.Queue() gives 0, meaning unbounded) and the FIFO contents. -/
structure MsgQueue where
  maxsize : Int
  items : List Msg
deriving DecidableEq

/-- Embeds osc_handler (src/core/osc_server.py, lines 86-104):
msg_queue.put_nowait with the handler's `except queue.Full: pass` folded
in.  Python's put_nowait raises Full exactly when 0 < maxsize ≤ qsize; the
handler then drops the message.  Returns the new queue and whether the
message was accepted. -/
def osc_handler (q : MsgQueue) (address : String) (args : List OSCArg) : MsgQueue × Bool :=
  if 0 < q.maxsize ∧ q.maxsize ≤ (q.items.length : Int) then (q, false)
  else ({ q with items := q.items ++ [(address, args)] }, true)

/-- The queue the add-on actually constructs: queue.Queue() with maxsize 0
(unbounded), initially empty (src/core/osc_server.py, line 75). -/
def initial_msg_queue : MsgQueue := { maxsize := 0, items := [] }

/-- The runtime state container OSCState (src/core/osc_server.py, lines
61-79); thread, server and dispatcher handles are opaque ids. -/
structure OSCState where
  server_thread : Option Nat := none
  server : Option Nat := none
  dispatcher : Option Nat := none
  msg_queue : MsgQueue := initial_msg_queue
  running : Bool := false

/-- The external conditions start_server depends on: whether the bundled
python-osc package imported, and whether binding (ip, port) raises OSError
(carrying the error text). -/
structure StartEnv where
  pythonosc_ok : Bool
  bind_result : String → Int → Option String

/-- Embeds start_server (src/core/osc_server.py, lines 111-185): rejected
when already running, then when python-osc is missing; a bind OSError
clears running/server/thread and reports "socket error: ..."; on success
the dispatcher, server, running flag and thread are installed. -/
def start_server (env : StartEnv) (ip : String) (port : Int) (st : OSCState) :
    Option String × OSCState :=
  if st.running then (some "Server already started.", st)
  else if !env.pythonosc_ok then
    (some "python-osc could not be imported (check addon vendors folder)", st)
  else
    match env.bind_result ip port with
    | some e =>
      (some ("socket error: " ++ e),
        { st with running := false, server := none, server_thread := none })
    | none =>
      (none,
        { st with dispatcher := some 1, server := some 1, running := true,
                  server_thread := some 1 })

/-- The first numeric argument of a message converted with float(a)
(osc_timer_step_extended, src/core/osc_server.py, lines 266-272). -/
def firstNumericValue : List OSCArg → Option ℚ
  | [] => none
  | OSCArg.ofFloat q :: _ => some q
  | OSCArg.ofInt n :: _ => some (n : ℚ)
  | _ :: rest => firstNumericValue rest

/-- One concrete entry of updates_to_apply (osc_timer_step_extended, lines
282-304): the tagged tuples ('shapekey', ...), ('bone', ...) and
('generic', ...). -/
inductive Update where
  | shapekey (object_name shapekey_name : String) (value : ℚ)
  | bone (armature_name bone_name rotation_axis : String) (value : ℚ) (rotation_mode : String)
  | generic (data_path : String) (value : ℚ)
deriving DecidableEq

/-- The update commands one mapping contributes for a numeric value
(osc_timer_step_extended, lines 279-304): a character rule emits a
shapekey command when shapekey_name is nonempty and a bone command when
both bone_name and armature_name are nonempty; a generic rule always
emits one generic command. -/
def commandsForMapping (m : Mapping) (value : ℚ) : List Update :=
  match m with
  | Mapping.char c =>
    (if c.shapekey_name ≠ "" then
        [Update.shapekey c.object_name c.shapekey_name (c.map_value value)]
      else []) ++
    (if c.bone_name ≠ "" ∧ c.armature_name ≠ "" then
        [Update.bone c.armature_name c.bone_name c.rotation_axis (c.map_value value) c.rotation_mode]
      else [])
  | Mapping.generic g => [Update.generic g.data_path (g.map_value value)]

/-- The update commands one drained message contributes
(osc_timer_step_extended, lines 265-304): none without a numeric argument
or without a routing entry; otherwise the commands of every mapping
registered on the address, in table order. -/
def commandsForMessage (table : MappingTable) (msg : Msg) : List Update :=
  match firstNumericValue msg.2 with
  | none => []
  | some value =>
    if containsAddr table msg.1 then
      (lookupTable table msg.1).foldl (fun acc m => acc ++ commandsForMapping m value) []
    else []

/-- updates_to_apply accumulated over the whole drained batch
(osc_timer_step_extended, lines 263-304). -/
def updatesForBatch (table : MappingTable) (batch : List Msg) : List Update :=
  batch.foldl (fun acc msg => acc ++ commandsForMessage table msg) []

/-- The apply loop of osc_timer_step_extended (lines 306-333): a single
try/except wraps the whole loop.  `raises u = true` models the external
apply call for u raising an exception; the result is the list of commands
applied before any failure and whether the except branch ran. -/
def applyBatch (raises : Update → Bool) : List Update → List Update × Bool
  | [] => ([], false)
  | u :: rest =>
    if raises u then ([], true)
    else
      let r := applyBatch raises rest
      (u :: r.1, r.2)

/-- The observable result of one tick: the returned delay (none stops the
timer), the messages left in the queue, the commands actually applied and
whether the apply-phase except branch ran. -/
structure TickResult where
  delay : Option ℚ
  remaining : List Msg
  applied : List Update
  apply_error : Bool
deriving DecidableEq

/-- Embeds osc_timer_step_extended (src/core/osc_server.py, lines 222-336)
for a configuration snapshot, an apply-failure oracle, the running flag
and the queue contents: returns None when not running; otherwise drains up
to 100 messages, builds the command list, applies it inside the single
try/except and returns a 0.01 s delay. -/
def osc_timer_step_extended (cfg : Config) (raises : Update → Bool)
    (running : Bool) (queued : List Msg) : TickResult :=
  if !running then
    { delay := none, remaining := queued, applied := [], apply_error := false }
  else
    let table := build_mapping_table_extended cfg
    let batch := queued.take 100
    let remaining := queued.drop 100
    if batch.isEmpty then
      { delay := some (1 / 100), remaining := remaining, applied := [], apply_error := false }
    else
      let r := applyBatch raises (updatesForBatch table batch)
      { delay := some (1 / 100), remaining := remaining, applied := r.1, apply_error := r.2 }

/-- A configuration with two generic rules on the same address, used to
exhibit the batch-apply behaviour: both rules (identity ranges, no clamp,
no invert) map the value 1 to 1. -/
def cfgTwoGeneric : Config :=
  { osc_mappings := [],
    osc_generic_mappings :=
      [ { address := "/x", data_path := "bpy.a", clamp := false },
        { address := "/x", data_path := "bpy.b", clamp := false } ] }

/-- An apply oracle under which only the command for data path bpy.a
raises an exception. -/
def raisesOnA : Update → Bool := fun u =>
  match u with
  | Update.generic "bpy.a" _ => true
  | _ => false

/-!  Lemmas and claim theorems. -/

lemma lookupTable_tableAppend (t : MappingTable) (a : String) (m : Mapping) (addr : String) :
    lookupTable (tableAppend t a m) addr =
      if a = addr then lookupTable t addr ++ [m] else lookupTable t addr := by
  induction t with
  | nil =>
    by_cases h : a = addr <;> simp [tableAppend, lookupTable, h]
  | cons hd rest ih =>
    obtain ⟨b, ms⟩ := hd
    by_cases hba : b = a
    · subst hba
      by_cases hA : b = addr <;> simp [tableAppend, lookupTable, hA]
    · by_cases hA : b = addr
      · have haddr : ¬ a = addr := fun h => hba (hA.trans h.symm)
        have haddr2 : ¬ addr = a := fun h => haddr h.symm
        subst hA
        simp [tableAppend, lookupTable, haddr, haddr2]
      · simp [tableAppend, lookupTable, hba, hA, ih]

lemma lookupTable_foldl_tableAppend {α : Type} (key : α → String) (val : α → Mapping)
    (items : List α) (t : MappingTable) (addr : String) :
    lookupTable (items.foldl (fun t0 i => tableAppend t0 (key i) (val i)) t) addr =
      lookupTable t addr ++ (items.filter (fun i => key i = addr)).map val := by
  induction items generalizing t with
  | nil => simp
  | cons i rest ih =>
    simp only [List.foldl_cons]
    rw [ih, lookupTable_tableAppend]
    by_cases h : key i = addr <;> simp [h, List.filter_cons]

/-- The affine remap of a normalized position t into the output range lands
between the two output endpoints whenever t lies in [0,1]. -/
lemma remap_mem_of_unit (a b t : ℚ) (h0 : 0 ≤ t) (h1 : t ≤ 1) :
    min a b ≤ a + t * (b - a) ∧ a + t * (b - a) ≤ max a b := by
  rcases le_total a b with h | h
  · rw [min_eq_left h, max_eq_right h]
    constructor <;> nlinarith
  · rw [min_eq_right h, max_eq_left h]
    constructor <;> nlinarith

/-- A character rule whose shapekey_name is empty and whose bone_name or
armature_name is empty contributes no update command. -/
lemma commandsForMapping_char_nil (m : OSCMapping) (v : ℚ)
    (h1 : m.shapekey_name = "") (h2 : m.bone_name = "" ∨ m.armature_name = "") :
    commandsForMapping (Mapping.char m) v = [] := by
  unfold commandsForMapping
  rcases h2 with h | h <;> simp [h1, h]

/-- applyBatch applies exactly the longest raise-free prefix and reports an
error exactly when some command raises. -/
lemma applyBatch_eq (raises : Update → Bool) (us : List Update) :
    applyBatch raises us = (us.takeWhile (fun u => !raises u), us.any raises) := by
  induction us with
  | nil => rfl
  | cons u rest ih =>
    by_cases h : raises u = true <;>
      simp [applyBatch, h, ih, List.takeWhile_cons]

/-- A message with no numeric argument, or whose address is not in the
table, contributes no update command. -/
lemma commandsForMessage_nil (table : MappingTable) (addr : String) (args : List OSCArg)
    (h : firstNumericValue args = none ∨ containsAddr table addr = false) :
    commandsForMessage table (addr, args) = [] := by
  rcases h with h | h
  · simp [commandsForMessage, h]
  · cases hv : firstNumericValue args with
    | none => simp [commandsForMessage, hv]
    | some v => simp [commandsForMessage, hv, h]

/-- C3: on a degenerate input range (min_in = max_in) both mapping kinds
normalize to exactly 0, so no division occurs and the result is
min_out + (1 if invert else 0) * (max_out - min_out). -/
theorem degenerate_range_policy :
    (∀ (m : GenericOSCMapping) (v : ℚ), m.max_in = m.min_in →
      m.map_value v =
        m.min_out + (if m.invert then (1 : ℚ) else 0) * (m.max_out - m.min_out)) ∧
    (∀ (m : OSCMapping) (v : ℚ), m.max_in = m.min_in →
      m.map_value v =
        m.min_out + (if m.invert then (1 : ℚ) else 0) * (m.max_out - m.min_out)) := by
  constructor
  · intro m v h
    unfold GenericOSCMapping.map_value
    cases hc : m.clamp <;> cases hi : m.invert <;> simp [h, hc, hi]
  · intro m v h
    unfold OSCMapping.map_value
    cases hc : m.clamp <;> cases hi : m.invert <;> simp [h, hc, hi]

/-- Concrete instantiation of the degenerate-range theorem. -/
theorem degenerate_range_policy_witness :
    (GenericOSCMapping.mk "/a" "bpy.x" 2 2 0 1 true true).map_value 5 =
      0 + (if true then (1 : ℚ) else 0) * (1 - 0) ∧
    (OSCMapping.mk "/a" "Cube" "Smile" "" "" "X" "EULER" 2 2 0 1 true false).map_value 5 =
      0 + (if false then (1 : ℚ) else 0) * (1 - 0) :=
  ⟨degenerate_range_policy.1 _ 5 rfl, degenerate_range_policy.2 _ 5 rfl⟩

/-- C4: with clamp = true the mapped value of either mapping kind lies in
the closed interval between the two output endpoints, for every input. -/
theorem clamp_output_bounds :
    (∀ (m : GenericOSCMapping) (v : ℚ), m.clamp = true →
      min m.min_out m.max_out ≤ m.map_value v ∧
      m.map_value v ≤ max m.min_out m.max_out) ∧
    (∀ (m : OSCMapping) (v : ℚ), m.clamp = true →
      min m.min_out m.max_out ≤ m.map_value v ∧
      m.map_value v ≤ max m.min_out m.max_out) := by
  have key : ∀ (a b t0 : ℚ) (invert : Bool),
      min a b ≤ a + (if invert then 1 - max 0 (min 1 t0) else max 0 (min 1 t0)) * (b - a) ∧
      a + (if invert then 1 - max 0 (min 1 t0) else max 0 (min 1 t0)) * (b - a) ≤ max a b := by
    intro a b t0 invert
    have h0 : (0 : ℚ) ≤ max 0 (min 1 t0) := le_max_left _ _
    have h1 : max 0 (min 1 t0) ≤ 1 := max_le (by norm_num) (min_le_left _ _)
    cases invert
    · simpa using remap_mem_of_unit a b (max 0 (min 1 t0)) h0 h1
    · simpa using remap_mem_of_unit a b (1 - max 0 (min 1 t0)) (by linarith) (by linarith)
  constructor
  · intro m v hc
    unfold GenericOSCMapping.map_value
    simp only [hc, if_true]
    exact key m.min_out m.max_out _ m.invert
  · intro m v hc
    unfold OSCMapping.map_value
    simp only [hc, if_true]
    exact key m.min_out m.max_out _ m.invert

/-- Concrete instantiation of the clamp-bounds theorem. -/
theorem clamp_output_bounds_witness :
    (min (0 : ℚ) 1 ≤ (GenericOSCMapping.mk "/a" "bpy.x" 0 1 0 1 true false).map_value 7 ∧
      (GenericOSCMapping.mk "/a" "bpy.x" 0 1 0 1 true false).map_value 7 ≤ max (0 : ℚ) 1) ∧
    (min (3 : ℚ) (-2) ≤ (OSCMapping.mk "/a" "Cube" "Smile" "" "" "X" "EULER" 0 1 3 (-2) true true).map_value 7 ∧
      (OSCMapping.mk "/a" "Cube" "Smile" "" "" "X" "EULER" 0 1 3 (-2) true true).map_value 7 ≤ max (3 : ℚ) (-2)) :=
  ⟨clamp_output_bounds.1 _ 7 rfl, clamp_output_bounds.2 _ 7 rfl⟩

/-- C5: with clamp = false, flipping only the invert flag reflects the
mapped value through min_out + max_out, for both mapping kinds. -/
theorem invert_round_trip :
    (∀ (m : GenericOSCMapping) (v : ℚ), m.clamp = false →
      ({ m with invert := true } : GenericOSCMapping).map_value v =
        m.min_out + m.max_out - ({ m with invert := false } : GenericOSCMapping).map_value v) ∧
    (∀ (m : OSCMapping) (v : ℚ), m.clamp = false →
      ({ m with invert := true } : OSCMapping).map_value v =
        m.min_out + m.max_out - ({ m with invert := false } : OSCMapping).map_value v) := by
  constructor
  · intro m v hc
    unfold GenericOSCMapping.map_value
    simp only [hc]
    split_ifs <;> first | (exfalso; assumption) | ring
  · intro m v hc
    unfold OSCMapping.map_value
    simp only [hc]
    split_ifs <;> first | (exfalso; assumption) | ring

/-- Concrete instantiation of the invert round-trip theorem. -/
theorem invert_round_trip_witness :
    ({ (GenericOSCMapping.mk "/a" "bpy.x" 0 2 1 5 false false) with invert := true } : GenericOSCMapping).map_value 3 =
      1 + 5 - ({ (GenericOSCMapping.mk "/a" "bpy.x" 0 2 1 5 false false) with invert := false } : GenericOSCMapping).map_value 3 ∧
    ({ (OSCMapping.mk "/a" "Cube" "Smile" "" "" "X" "EULER" 0 2 1 5 false false) with invert := true } : OSCMapping).map_value 3 =
      1 + 5 - ({ (OSCMapping.mk "/a" "Cube" "Smile" "" "" "X" "EULER" 0 2 1 5 false false) with invert := false } : OSCMapping).map_value 3 :=
  ⟨invert_round_trip.1 _ 3 rfl, invert_round_trip.2 _ 3 rfl⟩

/-- C9: the two duplicated map_value implementations agree on every pair of
rules sharing the same numeric range fields and flags, at every input. -/
theorem map_value_implementations_agree
    (mo : OSCMapping) (mg : GenericOSCMapping)
    (h1 : mo.min_in = mg.min_in) (h2 : mo.max_in = mg.max_in)
    (h3 : mo.min_out = mg.min_out) (h4 : mo.max_out = mg.max_out)
    (h5 : mo.clamp = mg.clamp) (h6 : mo.invert = mg.invert) (v : ℚ) :
    mo.map_value v = mg.map_value v := by
  unfold OSCMapping.map_value GenericOSCMapping.map_value
  rw [h1, h2, h3, h4, h5, h6]

/-- Concrete instantiation of the implementation-agreement theorem. -/
theorem map_value_implementations_agree_witness :
    (OSCMapping.mk "/a" "Cube" "Smile" "" "" "X" "EULER" 0 10 (-1) 1 false true).map_value 4 =
      (GenericOSCMapping.mk "/b" "bpy.x" 0 10 (-1) 1 false true).map_value 4 :=
  map_value_implementations_agree _ _ rfl rfl rfl rfl rfl rfl 4

/-- C6: building the routing table from a configuration snapshot is
deterministic and idempotent, and every address group holds exactly the
character rules with that stripped address, in collection order, followed
by the generic rules with that stripped address, in collection order. -/
theorem build_table_deterministic_grouped (cfg : Config) :
    build_mapping_table_extended cfg = build_mapping_table_extended cfg ∧
    ∀ addr : String,
      lookupTable (build_mapping_table_extended cfg) addr =
        (cfg.osc_mappings.filter (fun i => pyStrip i.address = addr)).map
          (fun i => Mapping.char (charMappingOfItem i)) ++
        (cfg.osc_generic_mappings.filter (fun i => pyStrip i.address = addr)).map
          (fun i => Mapping.generic (genericMappingOfItem i)) := by
  refine ⟨rfl, fun addr => ?_⟩
  unfold build_mapping_table_extended
  rw [lookupTable_foldl_tableAppend, lookupTable_foldl_tableAppend]
  simp [lookupTable]

/-- C2 counterexample: the queue the code constructs is queue.Queue(),
whose capacity attribute (maxsize) is 0, i.e. unbounded.  At a queue
holding exactly that many messages (the freshly constructed empty queue),
a push is accepted (returns true) and the queue grows to 1 message — it
does not return false and does not stay at the capacity. -/
theorem queue_drop_on_full_counterexample :
    initial_msg_queue.maxsize = 0 ∧
    initial_msg_queue.items.length = 0 ∧
    (osc_handler initial_msg_queue "/x" []).2 = true ∧
    (osc_handler initial_msg_queue "/x" []).1.items.length = 1 :=
  ⟨rfl, rfl, rfl, rfl⟩

/-- C2 (amended): osc_handler never blocks; because the code constructs the
queue unbounded (maxsize 0) every push is accepted and appended, and in a
bounded configuration (0 < maxsize = C) a push arriving when the queue
already holds C messages is dropped (returns false) and leaves the queue
unchanged, i.e. still at exactly C messages. -/
theorem queue_push_semantics :
    (∀ (q : MsgQueue) (a : String) (args : List OSCArg), q.maxsize = 0 →
      osc_handler q a args = ({ q with items := q.items ++ [(a, args)] }, true)) ∧
    (∀ (q : MsgQueue) (a : String) (args : List OSCArg),
      0 < q.maxsize → (q.items.length : Int) = q.maxsize →
      osc_handler q a args = (q, false)) := by
  constructor
  · intro q a args h
    unfold osc_handler
    rw [h]
    simp
  · intro q a args h1 h2
    unfold osc_handler
    rw [if_pos ⟨h1, le_of_eq h2.symm⟩]

/-- Concrete instantiation of the push-semantics theorem: the unbounded
queue accepts, a bounded queue at capacity 1 drops. -/
theorem queue_push_semantics_witness :
    osc_handler initial_msg_queue "/x" [] =
      ({ initial_msg_queue with items := initial_msg_queue.items ++ [("/x", [])] }, true) ∧
    osc_handler { maxsize := 1, items := [("/a", [])] } "/b" [] =
      ({ maxsize := 1, items := [("/a", [])] }, false) :=
  ⟨queue_push_semantics.1 initial_msg_queue "/x" [] rfl,
   queue_push_semantics.2 { maxsize := 1, items := [("/a", [])] } "/b" [] (by decide) rfl⟩

/-- C7: calling start_server while the server is already running returns
the explicit "Server already started." error and leaves the whole runtime
state (running flag, server, dispatcher, thread, queue contents)
unchanged, so no second listener is installed. -/
theorem start_while_running_rejected (env : StartEnv) (ip : String) (port : Int)
    (st : OSCState) (h : st.running = true) :
    start_server env ip port st = (some "Server already started.", st) := by
  unfold start_server
  rw [h]
  simp

/-- Concrete instantiation of the already-running rejection: a running
state with live handles is returned untouched even though binding would
have succeeded. -/
theorem start_while_running_rejected_witness :
    start_server ⟨true, fun _ _ => none⟩ "0.0.0.0" 9000
        { server_thread := some 5, server := some 5, dispatcher := some 5,
          msg_queue := { maxsize := 0, items := [("/a", [OSCArg.ofInt 1])] },
          running := true } =
      (some "Server already started.",
        { server_thread := some 5, server := some 5, dispatcher := some 5,
          msg_queue := { maxsize := 0, items := [("/a", [OSCArg.ofInt 1])] },
          running := true }) :=
  start_while_running_rejected _ "0.0.0.0" 9000 _ rfl

/-- C1 counterexample: with two generic rules on "/x" and an apply oracle
under which the first command raises, the tick applies nothing — the
sibling command for bpy.b, although itself error-free, is not applied,
because the whole apply loop sits inside one try/except. -/
theorem apply_error_not_isolated_counterexample :
    raisesOnA (Update.generic "bpy.a" 1) = true ∧
    raisesOnA (Update.generic "bpy.b" 1) = false ∧
    updatesForBatch (build_mapping_table_extended cfgTwoGeneric)
        [("/x", [OSCArg.ofFloat 1])] =
      [Update.generic "bpy.a" 1, Update.generic "bpy.b" 1] ∧
    (osc_timer_step_extended cfgTwoGeneric raisesOnA true
        [("/x", [OSCArg.ofFloat 1])]).applied = [] := by
  have hval1 : (genericMappingOfItem
      { address := "/x", data_path := "bpy.a", clamp := false }).map_value 1 = 1 := by
    norm_num [genericMappingOfItem, GenericOSCMapping.map_value]
  have hval2 : (genericMappingOfItem
      { address := "/x", data_path := "bpy.b", clamp := false }).map_value 1 = 1 := by
    norm_num [genericMappingOfItem, GenericOSCMapping.map_value]
  refine ⟨rfl, rfl, ?_, rfl⟩
  have e : updatesForBatch (build_mapping_table_extended cfgTwoGeneric)
      [("/x", [OSCArg.ofFloat 1])] =
      [Update.generic "bpy.a"
        ((genericMappingOfItem { address := "/x", data_path := "bpy.a", clamp := false }).map_value 1),
       Update.generic "bpy.b"
        ((genericMappingOfItem { address := "/x", data_path := "bpy.b", clamp := false }).map_value 1)] := rfl
  rw [e, hval1, hval2]

/-- C1 (amended): an apply error aborts the remaining commands of the same
batch — exactly the longest raise-free prefix is applied — but the
exception is swallowed and the tick still returns the 0.01 s delay, so
future ticks are not stopped. -/
theorem apply_error_skips_rest_but_timer_continues
    (cfg : Config) (raises : Update → Bool) (queued : List Msg) (h : queued ≠ []) :
    (osc_timer_step_extended cfg raises true queued).applied =
      (updatesForBatch (build_mapping_table_extended cfg) (queued.take 100)).takeWhile
        (fun u => !raises u) ∧
    (osc_timer_step_extended cfg raises true queued).apply_error =
      (updatesForBatch (build_mapping_table_extended cfg) (queued.take 100)).any raises ∧
    (osc_timer_step_extended cfg raises true queued).delay = some (1 / 100) := by
  have hb : (queued.take 100).isEmpty = false := by
    cases queued with
    | nil => exact absurd rfl h
    | cons a t => rfl
  refine ⟨?_, ?_, ?_⟩ <;>
    simp [osc_timer_step_extended, hb, applyBatch_eq]

/-- Concrete instantiation of the amended apply-error theorem on the
two-generic-rule configuration. -/
theorem apply_error_skips_rest_but_timer_continues_witness :
    (osc_timer_step_extended cfgTwoGeneric raisesOnA true
        [("/x", [OSCArg.ofFloat 1])]).applied =
      (updatesForBatch (build_mapping_table_extended cfgTwoGeneric)
          ([("/x", [OSCArg.ofFloat 1])].take 100)).takeWhile (fun u => !raisesOnA u) ∧
    (osc_timer_step_extended cfgTwoGeneric raisesOnA true
        [("/x", [OSCArg.ofFloat 1])]).apply_error =
      (updatesForBatch (build_mapping_table_extended cfgTwoGeneric)
          ([("/x", [OSCArg.ofFloat 1])].take 100)).any raisesOnA ∧
    (osc_timer_step_extended cfgTwoGeneric raisesOnA true
        [("/x", [OSCArg.ofFloat 1])]).delay = some (1 / 100) :=
  apply_error_skips_rest_but_timer_continues cfgTwoGeneric raisesOnA
    [("/x", [OSCArg.ofFloat 1])] (by decide)

/-- C8: a drained message with no numeric argument, or whose address has no
routing entry, produces zero update commands; the tick consumes it
silently, applies nothing, raises no error, and still schedules the next
tick in 0.01 s. -/
theorem routing_miss_is_noop (cfg : Config) (raises : Update → Bool)
    (addr : String) (args : List OSCArg)
    (h : firstNumericValue args = none ∨
         containsAddr (build_mapping_table_extended cfg) addr = false) :
    commandsForMessage (build_mapping_table_extended cfg) (addr, args) = [] ∧
    osc_timer_step_extended cfg raises true [(addr, args)] =
      { delay := some (1 / 100), remaining := [], applied := [], apply_error := false } := by
  have hcmd := commandsForMessage_nil (build_mapping_table_extended cfg) addr args h
  refine ⟨hcmd, ?_⟩
  have hstep : osc_timer_step_extended cfg raises true [(addr, args)] =
      { delay := some (1 / 100), remaining := [],
        applied := (applyBatch raises
          (commandsForMessage (build_mapping_table_extended cfg) (addr, args))).1,
        apply_error := (applyBatch raises
          (commandsForMessage (build_mapping_table_extended cfg) (addr, args))).2 } := rfl
  rw [hstep, hcmd]
  rfl

/-- Concrete instantiation of the routing-miss theorem: an address with no
rule at all, on the empty configuration. -/
theorem routing_miss_is_noop_witness :
    commandsForMessage (build_mapping_table_extended { osc_mappings := [], osc_generic_mappings := [] })
        ("/nope", [OSCArg.ofFloat 1]) = [] ∧
    osc_timer_step_extended { osc_mappings := [], osc_generic_mappings := [] }
        (fun _ => false) true [("/nope", [OSCArg.ofFloat 1])] =
      { delay := some (1 / 100), remaining := [], applied := [], apply_error := false } :=
  routing_miss_is_noop { osc_mappings := [], osc_generic_mappings := [] }
    (fun _ => false) "/nope" [OSCArg.ofFloat 1] (Or.inr rfl)

/-- C10: a character rule with an empty shapekey_name and an empty
bone_name or armature_name is filtered out at command-generation time:
it contributes no update command for any value, and a tick whose single
drained message matches the rule's address exactly still consumes the
message, produces zero commands and reaches no apply error. -/
theorem malformed_char_rule_filtered :
    (∀ (m : OSCMapping) (v : ℚ), m.shapekey_name = "" →
      (m.bone_name = "" ∨ m.armature_name = "") →
      commandsForMapping (Mapping.char m) v = []) ∧
    (∀ (item : CharItem) (args : List OSCArg) (raises : Update → Bool),
      pyStrip item.shapekey_name = "" →
      (pyStrip item.bone_name = "" ∨ pyStrip item.armature_name = "") →
      osc_timer_step_extended { osc_mappings := [item], osc_generic_mappings := [] }
          raises true [(pyStrip item.address, args)] =
        { delay := some (1 / 100), remaining := [], applied := [], apply_error := false }) := by
  constructor
  · exact commandsForMapping_char_nil
  · intro item args raises h1 h2
    have htbl : build_mapping_table_extended { osc_mappings := [item], osc_generic_mappings := [] } =
        [(pyStrip item.address, [Mapping.char (charMappingOfItem item)])] := rfl
    have hmap : ∀ v : ℚ, commandsForMapping (Mapping.char (charMappingOfItem item)) v = [] := by
      intro v
      apply commandsForMapping_char_nil
      · exact h1
      · rcases h2 with h | h
        · exact Or.inl h
        · exact Or.inr h
    have hcmd : commandsForMessage
        (build_mapping_table_extended { osc_mappings := [item], osc_generic_mappings := [] })
        (pyStrip item.address, args) = [] := by
      rw [htbl]
      cases hv : firstNumericValue args with
      | none => simp [commandsForMessage, hv]
      | some v => simp [commandsForMessage, hv, containsAddr, lookupTable, hmap v]
    have hstep : osc_timer_step_extended { osc_mappings := [item], osc_generic_mappings := [] }
        raises true [(pyStrip item.address, args)] =
        { delay := some (1 / 100), remaining := [],
          applied := (applyBatch raises
            (commandsForMessage
              (build_mapping_table_extended { osc_mappings := [item], osc_generic_mappings := [] })
              (pyStrip item.address, args))).1,
          apply_error := (applyBatch raises
            (commandsForMessage
              (build_mapping_table_extended { osc_mappings := [item], osc_generic_mappings := [] })
              (pyStrip item.address, args))).2 } := rfl
    rw [hstep, hcmd]
    rfl

/-- Concrete instantiation of the malformed-rule theorem: a rule with an
empty shapekey and bone name on address "/face", hit by a matching
message. -/
theorem malformed_char_rule_filtered_witness :
    commandsForMapping
        (Mapping.char (OSCMapping.mk "/face" "Cube" "" "Arm" "" "X" "EULER" 0 1 0 1 true false)) 1 = [] ∧
    osc_timer_step_extended
        { osc_mappings := [CharItem.mk "/face" "Cube" "" "Arm" "" "X" "EULER" 0 1 0 1 true false],
          osc_generic_mappings := [] }
        (fun _ => true) true [(pyStrip "/face", [OSCArg.ofFloat 1])] =
      { delay := some (1 / 100), remaining := [], applied := [], apply_error := false } :=
  ⟨malformed_char_rule_filtered.1 _ 1 rfl (Or.inl rfl),
   malformed_char_rule_filtered.2
     (CharItem.mk "/face" "Cube" "" "Arm" "" "X" "EULER" 0 1 0 1 true false)
     [OSCArg.ofFloat 1] (fun _ => true) rfl (Or.inl rfl)⟩

end OSC
